import Mathlib

/-!
Shallow embedding of `src/modules/downloader.js` (class DownloaderModule):
the shared number formatter `_convertMiles`, the media relay
`_downloadAndSendMedia`, and the five platform command handlers
(`downloadTikTok`, `downloadInstagram`, `downloadSoundCloud`,
`downloadFacebook`, `downloadTwitter`).

Conventions of the embedding:
- JavaScript numbers reaching the formatter are modelled as integers
  (the engagement metrics the module formats are integer counts); a value
  whose `Number()` coercion is NaN is modelled by the `JsVal.str`
  constructor, carried through unchanged as the source does.
- `toFixed(1)` on `n / d` is embedded exactly over the rationals it is
  applied to (an integer divided by 1000 or 1000000), with ECMA's
  "closest, ties to the larger" rounding.
- Possibly-absent string-valued JSON fields are `Option String`; JS
  truthiness of such a value (`undefined`/`""` are falsy) is `truthy`.
- Effects are explicit: each handler takes the mocked outcome of the
  aggregation-API fetch (`Except String resp`, `.error` = the fetch threw)
  and returns, besides its result, the list of fetch-client calls and of
  media-relay calls it performed, in order. A JS exception that escapes a
  handler is `.error` in the `ret` field.
-/

namespace Downloader

/-- A JavaScript value as seen by the number formatter: either a value whose
`Number()` coercion is an integer, or a value whose coercion is NaN
(a non-numeric string, modelled by the string itself). -/
inductive JsVal where
  | num (n : Int)
  | str (s : String)
deriving DecidableEq

/-- Embedding of `(n / d).toFixed(1)` for a natural `n` and positive divisor
`d`: the integer closest to `10 * n / d` (ties taken upward, per ECMA's
"pick the larger n"), rendered with one decimal digit. -/
def toFixedOneDivNat (n d : Nat) : String :=
  let t := (10 * n + d / 2) / d
  toString (t / 10) ++ "." ++ toString (t % 10)

/-- Embedding of `(n / d).toFixed(1)` for an integer `n`: ECMA's toFixed
formats a negative number as the minus sign before toFixed of its negation. -/
def toFixedOneDiv (n : Int) (d : Nat) : String :=
  if n < 0 then "-" ++ toFixedOneDivNat n.natAbs d else toFixedOneDivNat n.natAbs d

/-- Embedding of `_convertMiles` (downloader.js lines 67-73): NaN input is
returned unchanged; a number below 1000 is rendered by `toString`; below
1000000 as thousands with one decimal and `k`; otherwise as millions with
one decimal and `M`. -/
def _convertMiles : JsVal → JsVal
  | .num n =>
    if n < 1000 then .str (toString n)
    else if n < 1000000 then .str (toFixedOneDiv n 1000 ++ "k")
    else .str (toFixedOneDiv n 1000000 ++ "M")
  | .str s => .str s

/-- Rendering of a `JsVal` inside a template literal. -/
def showJsVal : JsVal → String
  | .num n => toString n
  | .str s => s

/-- The formatter as the handlers use it on an integer metric field. -/
def convertMilesText (n : Int) : String :=
  showJsVal (_convertMiles (.num n))

/-- Outcome of one `fetch` of media bytes: the transport threw, the response
arrived with a non-success status (`response.ok` false), or it succeeded. -/
inductive FetchOutcome where
  | netErr (e : String)
  | notOk (status : Nat)
  | ok
deriving DecidableEq

/-- Key of the inbound message: `fromMe` flag and conversation id. -/
structure MsgKey where
  fromMe : Bool
  remoteJid : String
deriving DecidableEq

/-- The inbound message-context object. -/
structure Msg where
  key : MsgKey
deriving DecidableEq

/-- The environment of one `_downloadAndSendMedia` call: the outcome of
fetching each URL's bytes, and whether `bot.sendMessage` succeeds. -/
structure RelayEnv where
  fetch : String → FetchOutcome
  sendOk : Bool

/-- The mimetype the relay assigns per content kind (downloader.js lines
106-126); `none` for a kind outside video/audio/image, where the source
throws `Unsupported media type`. -/
def mimetypeFor (kind : String) : Option String :=
  if kind = "video" then some "video/mp4"
  else if kind = "audio" then some "audio/mpeg"
  else if kind = "image" then some "image/jpeg"
  else none

/-- The relay's link fallback (downloader.js line 132). -/
def fallbackText (caption mediaUrl : String) : String :=
  caption ++ "\n\n*Failed to send media, here's the URL instead:* " ++ mediaUrl

/-- The `try` block of `_downloadAndSendMedia` (lines 99-129): fetch the
bytes, raise on failure or non-success status, build the payload (raising
on an unsupported kind), send it, return the empty string. `.error` is a
raised JS error. -/
def sendMediaTry (env : RelayEnv) (msg : Msg) (mediaUrl caption kind : String) :
    Except String String :=
  match env.fetch mediaUrl with
  | .netErr e => .error e
  | .notOk status => .error ("Failed to fetch media: " ++ toString status)
  | .ok =>
    match mimetypeFor kind with
    | none => .error "Unsupported media type"
    | some _ =>
      if env.sendOk then .ok "" else .error ("Error sending " ++ kind)

/-- Embedding of `_downloadAndSendMedia` (lines 98-134): the whole body sits
in one `try`; every raised error is caught and turned into the caption plus
raw-URL fallback text, so the function itself never raises (the result is
always `.ok`). -/
def _downloadAndSendMedia (env : RelayEnv) (msg : Msg) (mediaUrl caption kind : String) :
    Except String String :=
  match sendMediaTry env msg mediaUrl caption kind with
  | .ok s => .ok s
  | .error _ => .ok (fallbackText caption mediaUrl)

/-- `hay` contains `needle` as a substring. -/
def strContains (hay needle : String) : Prop :=
  ∃ a b : List Char, hay.data = a ++ needle.data ++ b

/-- `hay` begins with `pre`. -/
def strStarts (hay pre : String) : Prop :=
  ∃ b : List Char, hay.data = pre.data ++ b

/-- JS truthiness of a possibly-absent string field: `undefined` and the
empty string are falsy. -/
def truthy : Option String → Bool
  | none => false
  | some s => !(s == "")

/-- JS `a || b` over possibly-absent string fields. -/
def jsOr (a b : Option String) : Option String :=
  if truthy a then a else b

/-- JS `a || b` where the fallback `b` is a string literal. -/
def jsOrDefault (a : Option String) (b : String) : String :=
  match a with
  | some s => if s == "" then b else s
  | none => b

/-- Rendering of a possibly-undefined string in a template literal or as a
URL argument: `undefined` interpolates as the text "undefined". -/
def jsShow : Option String → String
  | some s => s
  | none => "undefined"

/-- `sub` occurs as a contiguous run inside the character list. -/
def charsContain (sub : List Char) : List Char → Bool
  | [] => sub.isEmpty
  | c :: cs => sub.isPrefixOf (c :: cs) || charsContain sub cs

/-- JS `s.includes(sub)` (substring test). -/
def jsIncludes (s sub : String) : Bool :=
  charsContain sub.data s.data

/-- One recorded call to the media relay `_downloadAndSendMedia`:
the media URL, the caption and the content kind it was handed. -/
structure RelayCall where
  url : String
  caption : String
  kind : String
deriving DecidableEq

/-- What one handler invocation did: its result (`.error` = a JS exception
escaped to the host), the fetch-client calls `(endpoint, url)` it made, and
the media-relay calls it made, in order. -/
structure HandlerOut where
  ret : Except String String
  fetchCalls : List (String × String)
  relayCalls : List RelayCall

/-- A handler's early return before any network call (missing URL argument,
`if (!url) return ...`). -/
def noCallOut (guidance : String) : HandlerOut :=
  { ret := .ok guidance, fetchCalls := [], relayCalls := [] }

/-! ### TikTok (downloader.js lines 142-174) -/

structure TikTokAuthor where
  nickname : String
  username : String
deriving DecidableEq

structure TikTokMusic where
  title : String
  author : String
  duration : Int
deriving DecidableEq

structure TikTokMediaItem where
  hd : Option String
  org : Option String
deriving DecidableEq

structure TikTokMeta where
  media : List TikTokMediaItem
deriving DecidableEq

structure TikTokData where
  author : TikTokAuthor
  duration : Int
  repro : Int
  like : Int
  share : Int
  comment : Int
  download : Int
  music : TikTokMusic
  meta : TikTokMeta
deriving DecidableEq

structure TikTokResp where
  data : TikTokData
deriving DecidableEq

/-- The TikTok caption block (lines 157-169). -/
def tiktokCaption (data : TikTokData) : String :=
  "╭  ✦ TikTok Download ✦  ╮\n\n" ++
  "*◦ Name:* " ++ data.author.nickname ++ "\n" ++
  "*◦ Username:* " ++ data.author.username ++ "\n" ++
  "*◦ Duration:* " ++ toString data.duration ++ "s\n" ++
  "*◦ Plays:* " ++ convertMilesText data.repro ++ "\n" ++
  "*◦ Likes:* " ++ convertMilesText data.like ++ "\n" ++
  "*◦ Shares:* " ++ convertMilesText data.share ++ "\n" ++
  "*◦ Comments:* " ++ convertMilesText data.comment ++ "\n" ++
  "*◦ Downloads:* " ++ convertMilesText data.download ++ "\n\n" ++
  "╭  ✦ Music Info ✦  ╮\n\n" ++
  "*◦ Music:* " ++ data.music.title ++ "\n" ++
  "*◦ Author:* " ++ data.music.author ++ "\n" ++
  "*◦ Duration:* " ++ toString data.music.duration ++ "s"

/-- Embedding of `downloadTikTok` (lines 142-174). The owner-only
"processing" edit (lines 147-152) touches neither the fetch client nor the
relay and is not tracked. A missing `meta.media[0]` is the JS TypeError the
unguarded source lets escape. The relay's return value is discarded and the
handler returns the empty string. -/
def downloadTikTok (api : Except String TikTokResp) (msg : Msg) (params : List String) :
    HandlerOut :=
  match params.head? with
  | none => noCallOut "Please provide a TikTok URL."
  | some url =>
    if url = "" then noCallOut "Please provide a TikTok URL."
    else
      match api with
      | .error e => { ret := .error e, fetchCalls := [("tiktok", url)], relayCalls := [] }
      | .ok result =>
        let data := result.data
        let caption := tiktokCaption data
        match data.meta.media.head? with
        | none =>
          { ret := .error "TypeError: Cannot read properties of undefined (reading hd)",
            fetchCalls := [("tiktok", url)], relayCalls := [] }
        | some item =>
          let mediaUrl := jsOr item.hd item.org
          { ret := .ok "",
            fetchCalls := [("tiktok", url)],
            relayCalls := [{ url := jsShow mediaUrl, caption := caption, kind := "video" }] }

/-! ### Instagram (downloader.js lines 182-204) -/

structure InstagramItem where
  type : String
  url : String
deriving DecidableEq

structure InstagramResp where
  data : List InstagramItem
deriving DecidableEq

/-- The Instagram text listing (lines 198-201): header plus one line per
media item, numbered from 1. -/
def instagramListText (media : List InstagramItem) : String :=
  "*亗 I N S T A G R A M*\n\n" ++
  String.join (media.enum.map (fun p =>
    "*› Media " ++ toString (p.1 + 1) ++ " [" ++ p.2.type ++ "]:* " ++ p.2.url ++ "\n"))

/-- Embedding of `downloadInstagram` (lines 182-204): the endpoint is
`igstories` when the URL contains `/stories/`, else `instagram`; the
handler returns the text listing and never calls the relay. -/
def downloadInstagram (api : Except String InstagramResp) (msg : Msg) (params : List String) :
    HandlerOut :=
  match params.head? with
  | none => noCallOut "Please provide an Instagram URL."
  | some url =>
    if url = "" then noCallOut "Please provide an Instagram URL."
    else
      let endpoint := if jsIncludes url "/stories/" then "igstories" else "instagram"
      match api with
      | .error e => { ret := .error e, fetchCalls := [(endpoint, url)], relayCalls := [] }
      | .ok result =>
        { ret := .ok (instagramListText result.data),
          fetchCalls := [(endpoint, url)], relayCalls := [] }

/-! ### SoundCloud (downloader.js lines 206-230) -/

structure SoundCloudData where
  title : String
  author : String
  playbacks : Int
  likes : Int
  comments : Int
  download : String
deriving DecidableEq

structure SoundCloudResp where
  data : SoundCloudData
deriving DecidableEq

/-- The SoundCloud caption block (lines 221-226). -/
def soundcloudCaption (res : SoundCloudData) : String :=
  "╭  ✦ Soundcloud Download ✦  ╮\n\n" ++
  "*◦ Title:* " ++ res.title ++ "\n" ++
  "*◦ Artist:* " ++ res.author ++ "\n" ++
  "*◦ Plays:* " ++ convertMilesText res.playbacks ++ "\n" ++
  "*◦ Likes:* " ++ convertMilesText res.likes ++ "\n" ++
  "*◦ Comments:* " ++ convertMilesText res.comments

/-- Embedding of `downloadSoundCloud` (lines 206-230): relays `res.download`
as audio, discards the relay result and returns the empty string. -/
def downloadSoundCloud (api : Except String SoundCloudResp) (msg : Msg) (params : List String) :
    HandlerOut :=
  match params.head? with
  | none => noCallOut "Please provide a SoundCloud URL."
  | some url =>
    if url = "" then noCallOut "Please provide a SoundCloud URL."
    else
      match api with
      | .error e => { ret := .error e, fetchCalls := [("soundcloud", url)], relayCalls := [] }
      | .ok result =>
        let res := result.data
        { ret := .ok "",
          fetchCalls := [("soundcloud", url)],
          relayCalls := [{ url := res.download, caption := soundcloudCaption res,
                           kind := "audio" }] }

/-! ### Facebook (downloader.js lines 239-271) -/

structure FacebookUrlItem where
  hd : Option String
  sd : Option String
deriving DecidableEq

/-- The Facebook response: `urls` is `none` when the field is missing or not
an array; `title` may be absent. -/
structure FacebookResp where
  urls : Option (List FacebookUrlItem)
  title : Option String
deriving DecidableEq

/-- Line 261, `result.urls[0].hd || result.urls[1]?.sd`, on a non-empty
`urls` list (the guard on line 253 has already ruled out the empty list). -/
def fbSelectUrl : List FacebookUrlItem → Option String
  | [] => none
  | u0 :: rest => jsOr u0.hd (rest.head?.bind FacebookUrlItem.sd)

/-- The user-facing Facebook failure string (line 269). -/
def fbFail (emsg : String) : String :=
  "❌ Failed to download Facebook video: " ++ emsg

/-- The Facebook caption block (lines 257-258). -/
def facebookCaption (title : Option String) : String :=
  "╭  ✦ Facebook video Download ✦  ╮\n\n" ++
  "*◦ Title:* " ++ jsOrDefault title "No title available"

/-- Embedding of `downloadFacebook` (lines 239-271): everything after the
guard sits in a `try`; a missing/empty `urls` array and a falsy selected
media URL each throw, and the `catch` turns any thrown message into the
glyph-prefixed failure string. On a truthy selected URL the relay is called
with kind `video` and the handler returns the empty string. -/
def downloadFacebook (api : Except String FacebookResp) (msg : Msg) (params : List String) :
    HandlerOut :=
  match params.head? with
  | none => noCallOut "Please provide a Facebook URL."
  | some url =>
    if url = "" then noCallOut "Please provide a Facebook URL."
    else
      match api with
      | .error e =>
        { ret := .ok (fbFail e), fetchCalls := [("facebook", url)], relayCalls := [] }
      | .ok result =>
        match result.urls with
        | none =>
          { ret := .ok (fbFail "Invalid API response: No media URLs found"),
            fetchCalls := [("facebook", url)], relayCalls := [] }
        | some urls =>
          if urls.isEmpty then
            { ret := .ok (fbFail "Invalid API response: No media URLs found"),
              fetchCalls := [("facebook", url)], relayCalls := [] }
          else
            let caption := facebookCaption result.title
            let mediaUrl := fbSelectUrl urls
            if truthy mediaUrl then
              { ret := .ok "",
                fetchCalls := [("facebook", url)],
                relayCalls := [{ url := jsShow mediaUrl, caption := caption,
                                 kind := "video" }] }
            else
              { ret := .ok (fbFail "No valid media URL found in API response"),
                fetchCalls := [("facebook", url)], relayCalls := [] }

/-! ### Twitter (downloader.js lines 279-329) -/

structure TwitterVideo where
  url : String
deriving DecidableEq, Inhabited

structure TwitterMedia where
  type : String
  videos : Option (List TwitterVideo)
  image : Option String
deriving DecidableEq

structure TwitterAuthor where
  username : String
deriving DecidableEq

structure TwitterData where
  author : TwitterAuthor
  description : String
  view : Int
  favorite : Int
  retweet : Int
  media : Option (List TwitterMedia)
deriving DecidableEq

structure TwitterResp where
  data : TwitterData
deriving DecidableEq

/-- `media.videos && media.videos.length > 0`. -/
def videosNonempty : Option (List TwitterVideo) → Bool
  | some vs => !vs.isEmpty
  | none => false

/-- The Twitter caption block (lines 300-305);
`description.split('https://')[0]` keeps the text before the first link. -/
def twitterCaption (data : TwitterData) : String :=
  "╭  ✦ Twitter Download ✦  ╮\n\n" ++
  "*◦ Author:* @" ++ data.author.username ++ "\n" ++
  "*◦ Description:* " ++ (data.description.splitOn "https://").headD "" ++ "\n" ++
  "*◦ Views:* " ++ convertMilesText data.view ++ "\n" ++
  "*◦ Likes:* " ++ convertMilesText data.favorite ++ "\n" ++
  "*◦ Retweets:* " ++ convertMilesText data.retweet

/-- Embedding of `downloadTwitter` (lines 279-329): inside one `try`;
no media members returns the "no media" text; a `video` with variants
relays `videos[videos.length - 1]` (the `default` of `getD` is never used:
the branch requires a non-empty list); a `photo` with a truthy image relays
it; a `gif` with variants relays `videos[0]`; anything else returns the
"unsupported" text. The `catch` wraps a thrown fetch error into the
glyph-prefixed failure string. -/
def downloadTwitter (api : Except String TwitterResp) (msg : Msg) (params : List String) :
    HandlerOut :=
  match params.head? with
  | none => noCallOut "Please provide a Twitter/X URL."
  | some url =>
    if url = "" then noCallOut "Please provide a Twitter/X URL."
    else
      match api with
      | .error e =>
        { ret := .ok ("❌ Failed to download Twitter media: " ++ e),
          fetchCalls := [("twitterv2", url)], relayCalls := [] }
      | .ok result =>
        let fc := [("twitterv2", url)]
        let data := result.data
        match data.media with
        | none =>
          { ret := .ok "This tweet does not contain any media.",
            fetchCalls := fc, relayCalls := [] }
        | some mediaList =>
          match mediaList.head? with
          | none =>
            { ret := .ok "This tweet does not contain any media.",
              fetchCalls := fc, relayCalls := [] }
          | some media =>
            let caption := twitterCaption data
            if media.type == "video" && videosNonempty media.videos then
              let vs := media.videos.getD []
              let bestVideo := vs.getD (vs.length - 1) default
              { ret := .ok "", fetchCalls := fc,
                relayCalls := [{ url := bestVideo.url, caption := caption,
                                 kind := "video" }] }
            else if media.type == "photo" && truthy media.image then
              { ret := .ok "", fetchCalls := fc,
                relayCalls := [{ url := jsShow media.image, caption := caption,
                                 kind := "image" }] }
            else if media.type == "gif" && videosNonempty media.videos then
              let vs := media.videos.getD []
              let gifVideo := vs.getD 0 default
              { ret := .ok "", fetchCalls := fc,
                relayCalls := [{ url := gifVideo.url, caption := caption,
                                 kind := "video" }] }
            else
              { ret := .ok "Unsupported media type or media not available.",
                fetchCalls := fc, relayCalls := [] }

/-! ## Theorems for the claims -/

/-- C1: the shared number formatter renders a numeric value below 1000
as-is, a value in [1000, 1000000) as thousands to one decimal place with a
`k` suffix, a value at or above 1000000 as millions to one decimal place
with an `M` suffix, and returns a non-numeric input unchanged. -/
theorem convertMiles_formats_by_magnitude :
    (∀ n : Int, n < 1000 → _convertMiles (.num n) = .str (toString n)) ∧
    (∀ n : Int, 1000 ≤ n → n < 1000000 →
      _convertMiles (.num n) = .str (toFixedOneDiv n 1000 ++ "k")) ∧
    (∀ n : Int, 1000000 ≤ n →
      _convertMiles (.num n) = .str (toFixedOneDiv n 1000000 ++ "M")) ∧
    (∀ s : String, _convertMiles (.str s) = .str s) := by
  refine ⟨fun n h => ?_, fun n h1 h2 => ?_, fun n h => ?_, fun s => rfl⟩
  · simp [_convertMiles, h]
  · simp [_convertMiles, h2, show ¬ n < 1000 by omega]
  · simp [_convertMiles, show ¬ n < 1000 by omega, show ¬ n < 1000000 by omega]

/-- C1 witness: the middle branch at 1500 yields "1.5k". -/
theorem convertMiles_formats_by_magnitude_witness :
    _convertMiles (.num 1500) = .str (toFixedOneDiv 1500 1000 ++ "k") ∧
    toFixedOneDiv 1500 1000 ++ "k" = "1.5k" :=
  ⟨convertMiles_formats_by_magnitude.2.1 1500 (by decide) (by decide), by decide⟩

/-- C2: when fetching the media bytes fails (network error or non-2xx
status), the media relay does not raise to its caller (the result is `.ok`)
and the returned string contains both the original caption and the raw
media URL. -/
theorem relay_fetch_failure_returns_fallback (env : RelayEnv) (msg : Msg)
    (mediaUrl caption kind : String)
    (hfail : env.fetch mediaUrl ≠ FetchOutcome.ok) :
    ∃ s, _downloadAndSendMedia env msg mediaUrl caption kind = .ok s ∧
      strContains s caption ∧ strContains s mediaUrl := by
  refine ⟨fallbackText caption mediaUrl, ?_, ?_, ?_⟩
  · unfold _downloadAndSendMedia sendMediaTry
    cases h : env.fetch mediaUrl with
    | netErr e => rfl
    | notOk status => rfl
    | ok => exact absurd h hfail
  · exact ⟨[], ("\n\n*Failed to send media, here's the URL instead:* " ++ mediaUrl).data,
      by simp [fallbackText]⟩
  · exact ⟨(caption ++ "\n\n*Failed to send media, here's the URL instead:* ").data, [],
      by simp [fallbackText]⟩

/-- C2 witness: a failing fetch at a concrete environment. -/
theorem relay_fetch_failure_returns_fallback_witness :
    ∃ s, _downloadAndSendMedia ⟨fun _ => .netErr "boom", true⟩ ⟨⟨false, "j"⟩⟩
        "http://m/v.mp4" "my caption" "video" = .ok s ∧
      strContains s "my caption" ∧ strContains s "http://m/v.mp4" :=
  relay_fetch_failure_returns_fallback _ _ _ _ _ (by decide)

/-- C3 counterexample: at contentKind "document" (outside video/audio/image)
with the byte fetch succeeding, the relay does NOT raise to its caller:
there is no error result. -/
theorem relay_unsupported_kind_counterexample :
    ¬ ∃ e, _downloadAndSendMedia ⟨fun _ => FetchOutcome.ok, true⟩ ⟨⟨false, "j"⟩⟩
        "http://m/x.bin" "cap" "document" = .error e := by
  intro h
  obtain ⟨e, h⟩ := h
  have hv : _downloadAndSendMedia ⟨fun _ => FetchOutcome.ok, true⟩ ⟨⟨false, "j"⟩⟩
      "http://m/x.bin" "cap" "document" = .ok (fallbackText "cap" "http://m/x.bin") := rfl
  rw [hv] at h
  exact Except.noConfusion h

/-- C3 amended: for a contentKind outside {video, audio, image} the relay's
try-block does throw the `Unsupported media type` error (whenever the byte
fetch succeeded), but the relay's own catch recovers it: the relay never
raises to its caller and instead returns the caption-plus-URL fallback
string. -/
theorem relay_unsupported_kind_recovered (env : RelayEnv) (msg : Msg)
    (mediaUrl caption kind : String)
    (hv : kind ≠ "video") (ha : kind ≠ "audio") (hi : kind ≠ "image") :
    _downloadAndSendMedia env msg mediaUrl caption kind
      = .ok (fallbackText caption mediaUrl) ∧
    (env.fetch mediaUrl = FetchOutcome.ok →
      sendMediaTry env msg mediaUrl caption kind = .error "Unsupported media type") := by
  have hm : mimetypeFor kind = none := by simp [mimetypeFor, hv, ha, hi]
  constructor
  · unfold _downloadAndSendMedia sendMediaTry
    cases h : env.fetch mediaUrl with
    | netErr e => rfl
    | notOk status => rfl
    | ok => rw [hm]
  · intro hok
    unfold sendMediaTry
    rw [hok, hm]

/-- C3 amended witness: contentKind "document" at a concrete environment. -/
theorem relay_unsupported_kind_recovered_witness :
    _downloadAndSendMedia ⟨fun _ => FetchOutcome.ok, true⟩ ⟨⟨false, "j"⟩⟩
        "http://m/x.bin" "cap" "document" = .ok (fallbackText "cap" "http://m/x.bin") ∧
    ((⟨fun _ => FetchOutcome.ok, true⟩ : RelayEnv).fetch "http://m/x.bin" = FetchOutcome.ok →
      sendMediaTry ⟨fun _ => FetchOutcome.ok, true⟩ ⟨⟨false, "j"⟩⟩
          "http://m/x.bin" "cap" "document" = .error "Unsupported media type") :=
  relay_unsupported_kind_recovered _ _ _ _ _ (by decide) (by decide) (by decide)

/-- C4: each of the five handlers, called with an empty parameter list,
returns its non-empty platform-specific guidance string and performs no
fetch-client call. -/
theorem handlers_empty_params_guidance (msg : Msg) :
    (∀ api : Except String TikTokResp,
      (downloadTikTok api msg []).ret = .ok "Please provide a TikTok URL." ∧
      (downloadTikTok api msg []).fetchCalls = [] ∧
      "Please provide a TikTok URL." ≠ "") ∧
    (∀ api : Except String InstagramResp,
      (downloadInstagram api msg []).ret = .ok "Please provide an Instagram URL." ∧
      (downloadInstagram api msg []).fetchCalls = [] ∧
      "Please provide an Instagram URL." ≠ "") ∧
    (∀ api : Except String SoundCloudResp,
      (downloadSoundCloud api msg []).ret = .ok "Please provide a SoundCloud URL." ∧
      (downloadSoundCloud api msg []).fetchCalls = [] ∧
      "Please provide a SoundCloud URL." ≠ "") ∧
    (∀ api : Except String TwitterResp,
      (downloadTwitter api msg []).ret = .ok "Please provide a Twitter/X URL." ∧
      (downloadTwitter api msg []).fetchCalls = [] ∧
      "Please provide a Twitter/X URL." ≠ "") ∧
    (∀ api : Except String FacebookResp,
      (downloadFacebook api msg []).ret = .ok "Please provide a Facebook URL." ∧
      (downloadFacebook api msg []).fetchCalls = [] ∧
      "Please provide a Facebook URL." ≠ "") :=
  ⟨fun _ => ⟨rfl, rfl, by decide⟩, fun _ => ⟨rfl, rfl, by decide⟩,
   fun _ => ⟨rfl, rfl, by decide⟩, fun _ => ⟨rfl, rfl, by decide⟩,
   fun _ => ⟨rfl, rfl, by decide⟩⟩

/-- C4 witness: the TikTok handler at a concrete message and failing api. -/
theorem handlers_empty_params_guidance_witness :
    (downloadTikTok (.error "e") ⟨⟨false, "j"⟩⟩ []).ret = .ok "Please provide a TikTok URL." :=
  ((handlers_empty_params_guidance ⟨⟨false, "j"⟩⟩).1 (.error "e")).1

/-- C5 scenario response: the mocked TikTok API payload of the claim. -/
def tiktokScenarioResp : TikTokResp :=
  ⟨⟨⟨"A", "a"⟩, 10, 1500, 200, 5, 3, 10, ⟨"T", "M", 5⟩,
    ⟨[⟨some "http://m/hd.mp4", none⟩]⟩⟩⟩

/-- C5: on the mocked TikTok response, the handler makes exactly one media
relay call, with content kind "video" and media URL "http://m/hd.mp4", and
returns the empty string. -/
theorem tiktok_scenario_one_relay_call :
    (downloadTikTok (.ok tiktokScenarioResp) ⟨⟨false, "jid"⟩⟩
        ["https://tiktok.com/x"]).relayCalls.map (fun c => (c.kind, c.url))
      = [("video", "http://m/hd.mp4")] ∧
    (downloadTikTok (.ok tiktokScenarioResp) ⟨⟨false, "jid"⟩⟩
        ["https://tiktok.com/x"]).ret = .ok "" :=
  ⟨rfl, rfl⟩

/-- C6 counterexample: a gif whose variants list is [a, b] is relayed with
URL "a" (the first variant), not "b" (the last), refuting the claim that
gifs relay the last element. -/
theorem twitter_gif_relays_first_counterexample :
    ¬ ((downloadTwitter (.ok ⟨⟨⟨"usr"⟩, "desc", 1, 2, 3,
          some [⟨"gif", some [⟨"a"⟩, ⟨"b"⟩], none⟩]⟩⟩) ⟨⟨false, "j"⟩⟩
        ["https://x.com/s"]).relayCalls.map (fun c => c.url) = ["b"]) := by
  decide

/-- C6 amended: when the first media element has type `video` with a
non-empty variants list the handler relays the URL of the LAST variant
(in particular "b" for [a, b]); when it has type `gif` it relays the URL of
the FIRST variant. -/
theorem twitter_video_last_gif_first (auth : TwitterAuthor) (desc : String)
    (view favorite retweet : Int) (msg : Msg) (url : String) (rest : List String)
    (mtype : String) (mimage : Option String) (ms : List TwitterMedia)
    (vs : List TwitterVideo) (hurl : url ≠ "") (hne : vs ≠ []) :
    (mtype = "video" →
      (downloadTwitter (.ok ⟨⟨auth, desc, view, favorite, retweet,
          some (⟨mtype, some vs, mimage⟩ :: ms)⟩⟩) msg (url :: rest)).relayCalls.map
        (fun c => (c.kind, c.url)) = [("video", (vs.getLast hne).url)]) ∧
    (mtype = "gif" →
      (downloadTwitter (.ok ⟨⟨auth, desc, view, favorite, retweet,
          some (⟨mtype, some vs, mimage⟩ :: ms)⟩⟩) msg (url :: rest)).relayCalls.map
        (fun c => (c.kind, c.url)) = [("video", (vs.head hne).url)]) := by
  have hl : vs.length - 1 < vs.length := by
    have := List.length_pos.mpr hne
    omega
  have hlast : vs[vs.length - 1]?.getD default = vs.getLast hne := by
    rw [List.getLast_eq_getElem, List.getElem?_eq_getElem hl]
    rfl
  have hhead : vs[0]?.getD default = vs.head hne := by
    cases vs with
    | nil => exact absurd rfl hne
    | cons v tl => simp
  have hvne : videosNonempty (some vs) = true := by
    simp [videosNonempty, List.isEmpty_iff, hne]
  constructor
  · intro ht
    subst ht
    simp [downloadTwitter, hurl, hvne, hlast]
  · intro ht
    subst ht
    simp [downloadTwitter, hurl, hvne, hhead]

/-- C6 amended witness: type "video" with variants [a, b] relays "b". -/
theorem twitter_video_last_gif_first_witness :
    (downloadTwitter (.ok ⟨⟨⟨"u"⟩, "d", 1, 2, 3,
        some [⟨"video", some [⟨"a"⟩, ⟨"b"⟩], none⟩]⟩⟩) ⟨⟨false, "j"⟩⟩
      ["https://x.com/t"]).relayCalls.map (fun c => (c.kind, c.url))
    = [("video", "b")] := by
  have h := (twitter_video_last_gif_first ⟨"u"⟩ "d" 1 2 3 ⟨⟨false, "j"⟩⟩
      "https://x.com/t" [] "video" none [] [⟨"a"⟩, ⟨"b"⟩] (by decide)
      (by decide)).1 rfl
  exact h

/-- C7: on a Facebook response with a non-empty urls list, the selected
media URL is the first entry's hd field when that is truthy, and otherwise
the sd field of the second entry (`urls[1]?.sd`); a truthy selection is
relayed as video, and a falsy one yields the glyph-prefixed user-facing
failure string and no relay call. -/
theorem facebook_prefers_hd_then_sd (title : Option String) (msg : Msg)
    (url : String) (rest : List String) (u0 : FacebookUrlItem)
    (tl : List FacebookUrlItem) (hurl : url ≠ "") :
    (truthy u0.hd = true → fbSelectUrl (u0 :: tl) = u0.hd) ∧
    (truthy u0.hd = false →
      fbSelectUrl (u0 :: tl) = tl.head?.bind FacebookUrlItem.sd) ∧
    (truthy (fbSelectUrl (u0 :: tl)) = true →
      (downloadFacebook (.ok ⟨some (u0 :: tl), title⟩) msg (url :: rest)).relayCalls.map
          (fun c => (c.kind, c.url)) = [("video", jsShow (fbSelectUrl (u0 :: tl)))] ∧
      (downloadFacebook (.ok ⟨some (u0 :: tl), title⟩) msg (url :: rest)).ret = .ok "") ∧
    (truthy (fbSelectUrl (u0 :: tl)) = false →
      (downloadFacebook (.ok ⟨some (u0 :: tl), title⟩) msg (url :: rest)).ret
        = .ok (fbFail "No valid media URL found in API response") ∧
      (downloadFacebook (.ok ⟨some (u0 :: tl), title⟩) msg (url :: rest)).relayCalls = [] ∧
      strStarts (fbFail "No valid media URL found in API response") "❌") := by
  refine ⟨fun h => ?_, fun h => ?_, fun h => ?_, fun h => ?_⟩
  · simp [fbSelectUrl, jsOr, h]
  · simp [fbSelectUrl, jsOr, h]
  · constructor <;> simp [downloadFacebook, hurl, h]
  · refine ⟨?_, ?_, ?_⟩
    · simp [downloadFacebook, hurl, h]
    · simp [downloadFacebook, hurl, h]
    · exact ⟨" Failed to download Facebook video: No valid media URL found in API response".data,
        by decide⟩

/-- C7 witness: hd present on the first entry is selected and relayed. -/
theorem facebook_prefers_hd_then_sd_witness :
    fbSelectUrl [⟨some "hd1", none⟩, ⟨none, some "sd2"⟩] = some "hd1" ∧
    (downloadFacebook (.ok ⟨some [⟨some "hd1", none⟩, ⟨none, some "sd2"⟩], none⟩)
        ⟨⟨false, "j"⟩⟩ ["https://fb.com/v"]).relayCalls.map (fun c => (c.kind, c.url))
      = [("video", "hd1")] := by
  have h := facebook_prefers_hd_then_sd none ⟨⟨false, "j"⟩⟩ "https://fb.com/v" []
      ⟨some "hd1", none⟩ [⟨none, some "sd2"⟩] (by decide)
  exact ⟨h.1 (by decide), (h.2.2.1 (by decide)).1⟩

/-- C8: a Facebook response whose urls field is the empty list yields the
user-visible failure string (beginning with the failure glyph and
containing "No media URLs found") and no relay call. -/
theorem facebook_empty_urls_failure :
    (downloadFacebook (.ok ⟨some [], none⟩) ⟨⟨false, "j"⟩⟩ ["https://fb.com/v"]).ret
      = .ok "❌ Failed to download Facebook video: Invalid API response: No media URLs found" ∧
    strStarts "❌ Failed to download Facebook video: Invalid API response: No media URLs found"
      "❌" ∧
    strContains "❌ Failed to download Facebook video: Invalid API response: No media URLs found"
      "No media URLs found" ∧
    (downloadFacebook (.ok ⟨some [], none⟩) ⟨⟨false, "j"⟩⟩
        ["https://fb.com/v"]).relayCalls = [] :=
  ⟨rfl,
   ⟨" Failed to download Facebook video: Invalid API response: No media URLs found".data,
     by decide⟩,
   ⟨"❌ Failed to download Facebook video: Invalid API response: ".data, [], by decide⟩,
   rfl⟩

/-- C9: the Instagram handler routes to the `igstories` endpoint exactly
when the URL contains "/stories/", and to the `instagram` endpoint
otherwise. -/
theorem instagram_endpoint_selection (api : Except String InstagramResp) (msg : Msg)
    (url : String) (rest : List String) (hurl : url ≠ "") :
    (jsIncludes url "/stories/" = true →
      (downloadInstagram api msg (url :: rest)).fetchCalls = [("igstories", url)]) ∧
    (jsIncludes url "/stories/" = false →
      (downloadInstagram api msg (url :: rest)).fetchCalls = [("instagram", url)]) := by
  constructor <;> intro h <;> cases api <;> simp [downloadInstagram, hurl, h]

/-- C9 witness: a stories URL routes to igstories, a post URL to instagram. -/
theorem instagram_endpoint_selection_witness :
    (downloadInstagram (.ok ⟨[]⟩) ⟨⟨false, "j"⟩⟩
        ["https://www.instagram.com/stories/u/1"]).fetchCalls
      = [("igstories", "https://www.instagram.com/stories/u/1")] ∧
    (downloadInstagram (.ok ⟨[]⟩) ⟨⟨false, "j"⟩⟩
        ["https://www.instagram.com/p/x"]).fetchCalls
      = [("instagram", "https://www.instagram.com/p/x")] :=
  ⟨(instagram_endpoint_selection _ _ _ _ (by decide)).1 (by decide),
   (instagram_endpoint_selection _ _ _ _ (by decide)).2 (by decide)⟩

/-- C10: every handler that calls the media relay (TikTok, SoundCloud,
Facebook, Twitter) discards the relay's return value: whenever its
relay-call trace is non-empty its result is the empty string, so the
relay's caption-plus-URL fallback text is never the handler's result. -/
theorem relay_result_discarded :
    (∀ (api : Except String TikTokResp) (msg : Msg) (params : List String),
      (downloadTikTok api msg params).relayCalls ≠ [] →
      (downloadTikTok api msg params).ret = .ok "") ∧
    (∀ (api : Except String SoundCloudResp) (msg : Msg) (params : List String),
      (downloadSoundCloud api msg params).relayCalls ≠ [] →
      (downloadSoundCloud api msg params).ret = .ok "") ∧
    (∀ (api : Except String FacebookResp) (msg : Msg) (params : List String),
      (downloadFacebook api msg params).relayCalls ≠ [] →
      (downloadFacebook api msg params).ret = .ok "") ∧
    (∀ (api : Except String TwitterResp) (msg : Msg) (params : List String),
      (downloadTwitter api msg params).relayCalls ≠ [] →
      (downloadTwitter api msg params).ret = .ok "") := by
  refine ⟨fun api msg params h => ?_, fun api msg params h => ?_,
    fun api msg params h => ?_, fun api msg params h => ?_⟩
  · cases params with
    | nil => simp [downloadTikTok, noCallOut] at h
    | cons u ps =>
      by_cases hu : u = ""
      · simp [downloadTikTok, hu, noCallOut] at h
      · cases api with
        | error e => simp [downloadTikTok, hu] at h
        | ok r =>
          cases hm : r.data.meta.media.head? with
          | none => simp [downloadTikTok, hu, hm] at h
          | some item => simp [downloadTikTok, hu, hm]
  · cases params with
    | nil => simp [downloadSoundCloud, noCallOut] at h
    | cons u ps =>
      by_cases hu : u = ""
      · simp [downloadSoundCloud, hu, noCallOut] at h
      · cases api with
        | error e => simp [downloadSoundCloud, hu] at h
        | ok r => simp [downloadSoundCloud, hu]
  · cases params with
    | nil => simp [downloadFacebook, noCallOut] at h
    | cons u ps =>
      by_cases hu : u = ""
      · simp [downloadFacebook, hu, noCallOut] at h
      · cases api with
        | error e => simp [downloadFacebook, hu] at h
        | ok r =>
          cases hru : r.urls with
          | none => simp [downloadFacebook, hu, hru] at h
          | some urls =>
            cases urls with
            | nil => simp [downloadFacebook, hu, hru] at h
            | cons u0 tl =>
              by_cases ht : truthy (fbSelectUrl (u0 :: tl)) = true
              · simp [downloadFacebook, hu, hru, ht]
              · simp [downloadFacebook, hu, hru, ht] at h
  · cases params with
    | nil => simp [downloadTwitter, noCallOut] at h
    | cons u ps =>
      by_cases hu : u = ""
      · simp [downloadTwitter, hu, noCallOut] at h
      · cases api with
        | error e => simp [downloadTwitter, hu] at h
        | ok r =>
          cases hdm : r.data.media with
          | none => simp [downloadTwitter, hu, hdm] at h
          | some mediaList =>
            cases mediaList with
            | nil => simp [downloadTwitter, hu, hdm] at h
            | cons media ms =>
              by_cases h1 : (media.type == "video" && videosNonempty media.videos) = true
              · simp [downloadTwitter, hu, hdm, h1]
              · by_cases h2 : (media.type == "photo" && truthy media.image) = true
                · simp [downloadTwitter, hu, hdm, h1, h2]
                · by_cases h3 : (media.type == "gif" && videosNonempty media.videos) = true
                  · simp [downloadTwitter, hu, hdm, h1, h2, h3]
                  · simp [downloadTwitter, hu, hdm, h1, h2, h3] at h

/-- C10 witness: the SoundCloud handler at a concrete response relays and
returns the empty string. -/
theorem relay_result_discarded_witness :
    (downloadSoundCloud (.ok ⟨⟨"t", "ar", 1, 2, 3, "http://dl"⟩⟩) ⟨⟨false, "j"⟩⟩
        ["https://soundcloud.com/x"]).ret = .ok "" :=
  relay_result_discarded.2.1 (.ok ⟨⟨"t", "ar", 1, 2, 3, "http://dl"⟩⟩) ⟨⟨false, "j"⟩⟩
    ["https://soundcloud.com/x"] (by decide)

end Downloader
